import Mathlib

/-!
Shallow embedding of the event-driven trading engine (Rust sources under
`src/`): exact decimal arithmetic is modelled by `ℚ`, `rust_decimal`'s
`round_dp(8)` by round-half-to-even at 8 fractional digits, `HashMap` by an
association list with replace-on-insert, wall-clock timestamps by explicit
`ℕ` parameters, and fallible methods by `Except` paired with the updated
state.
-/

/-- Round a rational to the nearest integer, ties to even
(`rust_decimal`'s midpoint-nearest-even strategy). -/

def roundHalfEven (q : ℚ) : ℤ :=
  let f : ℤ := ⌊q⌋
  let r : ℚ := q - f
  if r < 1/2 then f
  else if 1/2 < r then f + 1
  else if f % 2 = 0 then f else f + 1

/-- Model of `Decimal::round_dp(8)`: round half-to-even to 8 fractional
digits. -/

def round_dp8 (q : ℚ) : ℚ := (roundHalfEven (q * 100000000) : ℚ) / 100000000

/-- Association-list lookup, modelling `HashMap::get`. -/

def lookupKey {α β : Type} [DecidableEq α] : List (α × β) → α → Option β
  | [], _ => none
  | (k, v) :: rest, t => if k = t then some v else lookupKey rest t

/-- Association-list insert-or-replace, modelling `HashMap::insert`. -/

def insertKey {α β : Type} [DecidableEq α] : List (α × β) → α → β → List (α × β)
  | [], k, v => [(k, v)]
  | (k1, v1) :: rest, k, v =>
    if k1 = k then (k, v) :: rest else (k1, v1) :: insertKey rest k v

/-- Association-list removal, modelling `HashMap::remove` (keys are unique
by construction, so removing the first hit suffices). -/

def eraseKey {α β : Type} [DecidableEq α] : List (α × β) → α → List (α × β)
  | [], _ => []
  | (k1, v1) :: rest, k => if k1 = k then rest else (k1, v1) :: eraseKey rest k

/-- Error taxonomy from `src/error.rs` (the variants the embedded core
uses). -/

inductive TradingError where
  | MarketData (msg : String)
  | Validation (msg : String)
  | Execution (msg : String)
  | Risk (msg : String)
  | Time (msg : String)
deriving DecidableEq, Repr

/-- The `thiserror` `Display` strings of `TradingError`
(`err.to_string()` in the Rust code). -/

def TradingError.toMessage : TradingError → String
  | .MarketData m => "Market data error: " ++ m
  | .Validation m => "Validation error: " ++ m
  | .Execution m => "Execution error: " ++ m
  | .Risk m => "Risk management error: " ++ m
  | .Time m => "Time error: " ++ m

/-- Whether an error is of the `Risk` kind. -/

def TradingError.isRisk : TradingError → Bool
  | .Risk _ => true
  | _ => false

/-- Whether an error is of the `Validation` kind. -/

def TradingError.isValidation : TradingError → Bool
  | .Validation _ => true
  | _ => false

/-- `PositionSide` from `src/portfolio/position.rs`. -/

inductive PositionSide where
  | Long
  | Short
deriving DecidableEq, Repr

/-- Modelled from the spec: `Signal` comes from `src/strategy/strategy.rs`,
which is declared in `src/strategy/mod.rs` but absent from the sources; per
the spec, a Signal is one of Buy, Sell, Hold, as its callers confirm. -/

inductive Signal where
  | Buy
  | Sell
  | Hold
deriving DecidableEq, Repr

/-- `OrderSide` from `src/execution/order.rs`. -/

inductive OrderSide where
  | Buy
  | Sell
deriving DecidableEq, Repr

/-- `OrderType` from `src/execution/order.rs`. -/

inductive OrderType where
  | Market
  | Limit
deriving DecidableEq, Repr

/-- `TimeInForce` from `src/execution/order.rs`. -/

inductive TimeInForce where
  | Day
  | Gtc
  | Ioc
  | Fok
deriving DecidableEq, Repr

/-- `OrderStatus` from `src/execution/order.rs`. -/

inductive OrderStatus where
  | New
  | PartiallyFilled
  | Filled
  | Cancelled
  | Rejected
deriving DecidableEq, Repr

/-- `Order` record from `src/execution/order.rs`. -/

structure Order where
  id : ℕ
  symbol : String
  side : OrderSide
  order_type : OrderType
  tif : TimeInForce
  quantity : ℚ
  price : Option ℚ
  filled_quantity : ℚ
  status : OrderStatus
  created_at : ℕ
  updated_at : ℕ
deriving DecidableEq, Repr

/-- `Fill` record from `src/execution/fill.rs`. -/

structure Fill where
  order_id : ℕ
  symbol : String
  price : ℚ
  quantity : ℚ
  fee : ℚ
  timestamp : ℕ
deriving DecidableEq, Repr

/-- `PriceEvent` from `src/market_data/event.rs`. -/

structure PriceEvent where
  symbol : String
  price : ℚ
  timestamp : ℕ
  volume : ℚ
deriving DecidableEq, Repr

/-- `Position` from `src/portfolio/position.rs`. -/

structure Position where
  symbol : String
  side : PositionSide
  entry_price : ℚ
  size : ℚ
  stop_loss : ℚ
  opened_at : ℕ
  last_price : ℚ
deriving DecidableEq, Repr

/-- `Position::new`: rejects non-positive entry price, size or stop loss;
`last_price` starts at the entry price. -/

def Position.new (symbol : String) (side : PositionSide)
    (entry_price size stop_loss : ℚ) (opened_at : ℕ) :
    Except TradingError Position :=
  if entry_price ≤ 0 ∨ size ≤ 0 ∨ stop_loss ≤ 0 then
    .error (.Validation "Entry price, size, and stop loss must be positive")
  else
    .ok { symbol, side, entry_price, size, stop_loss, opened_at,
          last_price := entry_price }

/-- `Position::update_price`: rejects non-positive prices, else sets
`last_price`. -/

def Position.update_price (p : Position) (price : ℚ) :
    Except TradingError Position :=
  if price ≤ 0 then .error (.Validation "Price must be positive")
  else .ok { p with last_price := price }

/-- `Position::notional_value`. -/

def Position.notional_value (p : Position) : ℚ := p.entry_price * p.size

/-- `Position::unrealized_pnl`: signed price move times size, rounded to 8
places. -/

def Position.unrealized_pnl (p : Position) : ℚ :=
  let diff := match p.side with
    | .Long => p.last_price - p.entry_price
    | .Short => p.entry_price - p.last_price
  round_dp8 (diff * p.size)

/-- `Portfolio` from `src/portfolio/portfolio.rs` (the position map as an
association list). -/

structure Portfolio where
  positions : List (String × Position)
  realized_pnl : ℚ
deriving DecidableEq, Repr

/-- `Portfolio::open_position`: at most one open position per symbol. -/

def Portfolio.open_position (pf : Portfolio) (symbol : String)
    (side : PositionSide) (entry_price size stop_loss : ℚ) (opened_at : ℕ) :
    Except TradingError Unit × Portfolio :=
  if (lookupKey pf.positions symbol).isSome then
    (.error (.Risk ("Position already open for " ++ symbol)), pf)
  else
    match Position.new symbol side entry_price size stop_loss opened_at with
    | .error e => (.error e, pf)
    | .ok pos =>
      (.ok (), { pf with positions := insertKey pf.positions symbol pos })

/-- `Portfolio::close_position`. Faithful to the source: the position is
REMOVED from the map before `update_price` validates the exit price, so a
non-positive exit price errors out with the position already dropped. -/

def Portfolio.close_position (pf : Portfolio) (symbol : String)
    (exit_price : ℚ) : Except TradingError ℚ × Portfolio :=
  match lookupKey pf.positions symbol with
  | none => (.error (.Risk ("No open position for " ++ symbol)), pf)
  | some pos =>
    let pf1 : Portfolio := { pf with positions := eraseKey pf.positions symbol }
    match pos.update_price exit_price with
    | .error e => (.error e, pf1)
    | .ok pos1 =>
      let pnl := pos1.unrealized_pnl
      (.ok pnl, { pf1 with realized_pnl := pf1.realized_pnl + pnl })

/-- `Portfolio::update_price`: forwards to the symbol's position if there is
one. -/

def Portfolio.update_price (pf : Portfolio) (symbol : String) (price : ℚ) :
    Except TradingError Unit × Portfolio :=
  match lookupKey pf.positions symbol with
  | none => (.ok (), pf)
  | some pos =>
    match pos.update_price price with
    | .error e => (.error e, pf)
    | .ok pos1 =>
      (.ok (), { pf with positions := insertKey pf.positions symbol pos1 })

/-- `Portfolio::open_positions`. -/

def Portfolio.open_positions (pf : Portfolio) : ℕ := pf.positions.length

/-- `Portfolio::exposure`: sum of notionals. -/

def Portfolio.exposure (pf : Portfolio) : ℚ :=
  (pf.positions.map (fun kv => kv.2.notional_value)).sum

/-- `Portfolio::unrealized_pnl`: sum over open positions. -/

def Portfolio.unrealized_pnl (pf : Portfolio) : ℚ :=
  (pf.positions.map (fun kv => kv.2.unrealized_pnl)).sum

/-- `Portfolio::close_all_at_last`: drain every position at its last known
price, accumulating realized PnL. -/

def Portfolio.close_all_at_last (pf : Portfolio) :
    List (String × ℚ × ℚ) × Portfolio :=
  let results := pf.positions.map
    (fun kv => (kv.1, kv.2.last_price, kv.2.unrealized_pnl))
  let pnl := (results.map (fun r => r.2.2)).sum
  (results, { positions := [], realized_pnl := pf.realized_pnl + pnl })

/-- `PortfolioLimits` from `src/risk/portfolio_limits.rs`. -/

structure PortfolioLimits where
  max_daily_loss : ℚ
  max_position_size : ℚ
  max_leverage : ℚ
  max_open_positions : ℕ
deriving DecidableEq, Repr

/-- `PortfolioLimits::is_daily_loss_exceeded`. -/

def PortfolioLimits.is_daily_loss_exceeded (l : PortfolioLimits)
    (current_daily_loss : ℚ) : Except TradingError Bool :=
  if current_daily_loss < 0 then
    .error (.Validation "Daily loss cannot be negative")
  else .ok (decide (l.max_daily_loss < |current_daily_loss|))

/-- `PortfolioLimits::is_position_too_large`. -/

def PortfolioLimits.is_position_too_large (l : PortfolioLimits)
    (position_size : ℚ) : Except TradingError Bool :=
  if position_size ≤ 0 then
    .error (.Validation "Position size must be positive")
  else .ok (decide (l.max_position_size < position_size))

/-- `PortfolioLimits::is_leverage_exceeded`. -/

def PortfolioLimits.is_leverage_exceeded (l : PortfolioLimits)
    (used_leverage : ℚ) : Except TradingError Bool :=
  if used_leverage ≤ 0 then
    .error (.Validation "Leverage must be positive")
  else .ok (decide (l.max_leverage < used_leverage))

/-- `PortfolioLimits::can_open_new_position` (never errors). -/

def PortfolioLimits.can_open_new_position (l : PortfolioLimits)
    (current_open_positions : ℕ) : Except TradingError Bool :=
  .ok (decide (current_open_positions < l.max_open_positions))

/-- `RiskEngine` state from `src/risk/engine.rs`. -/

structure RiskEngine where
  account_balance : ℚ
  portfolio : Portfolio
  limits : PortfolioLimits
  kill_switch : Bool
  kill_switch_reason : Option String
  daily_loss : ℚ
  peak_equity : ℚ
deriving DecidableEq, Repr

/-- `RiskEngine::new`: positive balance required; peak equity starts at the
balance. -/

def RiskEngine.new (account_balance : ℚ) (limits : PortfolioLimits) :
    Except TradingError RiskEngine :=
  if account_balance ≤ 0 then
    .error (.Validation "Account balance must be positive")
  else
    .ok { account_balance, portfolio := { positions := [], realized_pnl := 0 },
          limits, kill_switch := false, kill_switch_reason := none,
          daily_loss := 0, peak_equity := account_balance }

/-- `RiskEngine::equity`. -/

def RiskEngine.equity (s : RiskEngine) : ℚ :=
  s.account_balance + s.portfolio.unrealized_pnl

/-- `RiskEngine::activate_kill_switch`. -/

def RiskEngine.activate_kill_switch (s : RiskEngine) (reason : String) :
    RiskEngine :=
  { s with kill_switch := true, kill_switch_reason := some reason }

/-- `RiskEngine::deactivate_kill_switch`. -/

def RiskEngine.deactivate_kill_switch (s : RiskEngine) : RiskEngine :=
  { s with kill_switch := false, kill_switch_reason := none }

/-- `RiskEngine::update_risk_state` (returns `Result<()>` in the source but
never errors, so it is modelled as a pure state update). -/

def RiskEngine.update_risk_state (s : RiskEngine) : RiskEngine :=
  let equity := s.equity
  let s1 := if s.peak_equity < equity then { s with peak_equity := equity } else s
  let loss := |s1.account_balance - equity|
  { s1 with daily_loss := if equity < s1.account_balance then loss else 0 }

/-- `RiskEngine::update_price`. -/

def RiskEngine.update_price (s : RiskEngine) (symbol : String) (price : ℚ) :
    Except TradingError Unit × RiskEngine :=
  match s.portfolio.update_price symbol price with
  | (.error e, pf) => (.error e, { s with portfolio := pf })
  | (.ok _, pf) => (.ok (), ({ s with portfolio := pf }).update_risk_state)

/-- `RiskEngine::pre_trade_validate`: the ordered pre-trade checks of
`src/risk/engine.rs` lines 73-130. -/

def RiskEngine.pre_trade_validate (s : RiskEngine) (_symbol : String)
    (_side : PositionSide) (entry_price position_size stop_loss_distance : ℚ) :
    Except TradingError Unit × RiskEngine :=
  if s.kill_switch then
    (.error (.Risk "Kill-switch active; trading halted"), s)
  else if entry_price ≤ 0 ∨ position_size ≤ 0 ∨ stop_loss_distance ≤ 0 then
    (.error (.Validation
      "Entry price, position size, and stop loss distance must be positive"), s)
  else
    match s.limits.can_open_new_position s.portfolio.open_positions with
    | .error e => (.error e, s)
    | .ok canOpen =>
      if canOpen = false then
        (.error (.Risk "Max open positions reached"),
         s.activate_kill_switch "Max open positions reached")
      else
        let notional := entry_price * position_size
        match s.limits.is_position_too_large notional with
        | .error e => (.error e, s)
        | .ok tooLarge =>
          if tooLarge then
            (.error (.Risk "Position notional exceeds limit"), s)
          else
            let projected_exposure := s.portfolio.exposure + notional
            let equity := s.equity
            if equity ≤ 0 then
              (.error (.Risk "Equity depleted"),
               s.activate_kill_switch "Equity depleted")
            else
              let used_leverage := round_dp8 (projected_exposure / equity)
              match s.limits.is_leverage_exceeded used_leverage with
              | .error e => (.error e, s)
              | .ok levEx =>
                if levEx then
                  (.error (.Risk "Leverage exceeds limit"), s)
                else
                  let s1 := s.update_risk_state
                  match s1.limits.is_daily_loss_exceeded s1.daily_loss with
                  | .error e => (.error e, s1)
                  | .ok dlEx =>
                    if dlEx then
                      (.error (.Risk "Daily loss limit exceeded"),
                       s1.activate_kill_switch "Daily loss limit exceeded")
                    else (.ok (), s1)

/-- `RiskEngine::record_trade_open`: a pure delegation to
`Portfolio::open_position` — it performs no risk checks of its own. -/

def RiskEngine.record_trade_open (s : RiskEngine) (symbol : String)
    (side : PositionSide) (entry_price position_size stop_loss : ℚ)
    (opened_at : ℕ) : Except TradingError Unit × RiskEngine :=
  match s.portfolio.open_position symbol side entry_price position_size
      stop_loss opened_at with
  | (r, pf) => (r, { s with portfolio := pf })

/-- `RiskEngine::record_trade_close`. -/

def RiskEngine.record_trade_close (s : RiskEngine) (symbol : String)
    (exit_price : ℚ) : Except TradingError ℚ × RiskEngine :=
  match s.portfolio.close_position symbol exit_price with
  | (.error e, pf) => (.error e, { s with portfolio := pf })
  | (.ok pnl, pf) =>
    let s1 : RiskEngine :=
      { s with portfolio := pf, account_balance := s.account_balance + pnl }
    (.ok pnl, s1.update_risk_state)

/-- `RiskEngine::liquidate_all`. -/

def RiskEngine.liquidate_all (s : RiskEngine) :
    List (String × ℚ × ℚ) × RiskEngine :=
  match s.portfolio.close_all_at_last with
  | (results, pf) =>
    let bal := s.account_balance + (results.map (fun r => r.2.2)).sum
    let s1 : RiskEngine := { s with portfolio := pf, account_balance := bal }
    (results, s1.update_risk_state)

/-- `PositionSizer::calculate` from `src/risk/position_sizer.rs`. -/

def PositionSizer.calculate (account_balance risk_percentage
    stop_loss_distance : ℚ) : Except TradingError ℚ :=
  if account_balance ≤ 0 then
    .error (.Validation "Account balance must be positive")
  else if risk_percentage ≤ 0 ∨ 100 < risk_percentage then
    .error (.Validation "Risk percentage must be between 0 and 100")
  else if stop_loss_distance ≤ 0 then
    .error (.Validation "Stop loss distance must be positive")
  else
    .ok (round_dp8 (account_balance * (risk_percentage / 100)
          / stop_loss_distance))

/-- `StopLossManager::calculate_stop_loss` from `src/risk/stop_loss.rs`. -/

def StopLossManager.calculate_stop_loss (entry_price stop_loss_distance : ℚ)
    (is_long : Bool) : Except TradingError ℚ :=
  if entry_price ≤ 0 then
    .error (.Validation "Entry price must be positive")
  else if stop_loss_distance ≤ 0 then
    .error (.Validation "Stop loss distance must be positive")
  else
    let stop_loss := if is_long then entry_price - stop_loss_distance
      else entry_price + stop_loss_distance
    if stop_loss ≤ 0 then
      .error (.Validation "Stop loss price would be invalid")
    else .ok (round_dp8 stop_loss)

/-- The fee constant `0.0005` of `src/execution/fill.rs`. -/

def feeRate : ℚ := 1/2000

/-- `FillSimulator::simulate` from `src/execution/fill.rs`: at most two
fills, the wall-clock timestamp passed explicitly. -/

def FillSimulator.simulate (order_id : ℕ) (symbol : String)
    (price quantity : ℚ) (now : ℕ) : List Fill :=
  let qtys : ℚ × ℚ :=
    if 1 < quantity then
      let half := round_dp8 (quantity / 2)
      (half, quantity - half)
    else (quantity, 0)
  let fills : List Fill :=
    if 0 < qtys.1 then
      [{ order_id, symbol, price, quantity := qtys.1,
         fee := round_dp8 (price * qtys.1 * feeRate), timestamp := now }]
    else []
  if 0 < qtys.2 then
    fills ++ [{ order_id, symbol, price, quantity := qtys.2,
                fee := round_dp8 (price * qtys.2 * feeRate), timestamp := now }]
  else fills

/-- `MeanReversionStrategy` from `src/strategy/mean_reversion.rs`. -/

structure MeanReversionStrategy where
  name : String
  threshold : ℚ
  window_size : ℕ
  prices : List ℚ
  risk_percentage : ℚ
deriving DecidableEq, Repr

/-- `MeanReversionStrategy::new`. -/

def MeanReversionStrategy.new (threshold : ℚ) (window_size : ℕ)
    (risk_percentage : ℚ) : Except TradingError MeanReversionStrategy :=
  if threshold ≤ 0 ∨ 1 ≤ threshold then
    .error (.Validation "Threshold must be between 0 and 1")
  else if window_size = 0 then
    .error (.Validation "Window size must be greater than 0")
  else if risk_percentage ≤ 0 ∨ 100 < risk_percentage then
    .error (.Validation "Risk percentage must be between 0 and 100")
  else
    .ok { name := "MeanReversion", threshold, window_size, prices := [],
          risk_percentage }

/-- `MeanReversionStrategy::calculate_mean` (the Decimal division is
modelled as exact rational division). -/

def MeanReversionStrategy.calculate_mean (s : MeanReversionStrategy) :
    Option ℚ :=
  if s.prices = [] then none
  else some (s.prices.sum / (s.prices.length : ℚ))

/-- `MeanReversionStrategy::calculate_deviation`. -/

def MeanReversionStrategy.calculate_deviation (_s : MeanReversionStrategy)
    (current_price mean : ℚ) : ℚ :=
  |current_price - mean| / mean

/-- `MeanReversionStrategy::signal` (`impl Strategy` in
`src/strategy/mean_reversion.rs`): note the guard is on an EMPTY window,
not on a window shorter than `window_size`. -/

def MeanReversionStrategy.signal (s : MeanReversionStrategy)
    (event : PriceEvent) : Except TradingError Signal :=
  if s.prices = [] then .ok .Hold
  else
    match s.calculate_mean with
    | none => .ok .Hold
    | some mean =>
      let deviation := s.calculate_deviation event.price mean
      if event.price < mean ∧ s.threshold < deviation then .ok .Buy
      else if mean < event.price ∧ s.threshold < deviation then .ok .Sell
      else .ok .Hold

/-- `PriceMonitor` from `src/market_data/monitor.rs`. -/

structure PriceMonitor where
  last_seen : List (String × ℕ × ℚ)
  gap_threshold_ms : ℕ
deriving DecidableEq, Repr

/-- `PriceMonitor::process`: `None` for duplicates, `MarketData` error for
gaps (without updating state), otherwise store and forward. -/

def PriceMonitor.process (m : PriceMonitor) (event : PriceEvent) :
    Except TradingError (Option PriceEvent) × PriceMonitor :=
  match lookupKey m.last_seen event.symbol with
  | some lastRec =>
    if event.timestamp ≤ lastRec.1 ∧ event.price = lastRec.2 then
      (.ok none, m)
    else if lastRec.1 < event.timestamp ∧
        m.gap_threshold_ms < event.timestamp - lastRec.1 then
      (.error (.MarketData ("Price gap detected for " ++ event.symbol ++ ": "
        ++ toString (event.timestamp - lastRec.1) ++ "ms")), m)
    else
      (.ok (some event),
       { m with last_seen :=
           insertKey m.last_seen event.symbol (event.timestamp, event.price) })
  | none =>
    (.ok (some event),
     { m with last_seen :=
         insertKey m.last_seen event.symbol (event.timestamp, event.price) })

/-- `Event` from `src/engine/event.rs`. -/

inductive Event where
  | PriceUpdated (e : PriceEvent)
  | SignalGenerated (strategy_name symbol : String) (signal : Signal)
      (price : ℚ)
  | TradeExecuted (symbol : String) (signal : Signal)
      (entry_price position_size stop_loss : ℚ)
  | TradeClosed (symbol : String) (exit_price pnl : ℚ)
  | OrderSubmitted (order_id : ℕ) (symbol : String) (side : Signal)
      (quantity : ℚ) (price : Option ℚ)
  | OrderFilled (order_id : ℕ) (symbol : String) (filled_qty price : ℚ)
  | OrderCancelled (order_id : ℕ) (symbol : String)
  | OrderRejected (order_id : ℕ) (symbol : String) (reason : String)
  | RiskHalt (reason : String)
  | Error (msg : String)
deriving DecidableEq, Repr

/-- `Event::event_type`: the stable type tag. -/

def Event.event_type : Event → String
  | .PriceUpdated _ => "PriceUpdated"
  | .SignalGenerated _ _ _ _ => "SignalGenerated"
  | .TradeExecuted _ _ _ _ _ => "TradeExecuted"
  | .TradeClosed _ _ _ => "TradeClosed"
  | .OrderSubmitted _ _ _ _ _ => "OrderSubmitted"
  | .OrderFilled _ _ _ _ => "OrderFilled"
  | .OrderCancelled _ _ => "OrderCancelled"
  | .OrderRejected _ _ _ => "OrderRejected"
  | .RiskHalt _ => "RiskHalt"
  | .Error _ => "Error"

/-- `entry(tag).or_insert(0); *counter += 1` on the counter map of
`src/engine/bus.rs`: increment in place, or append `(tag, 1)`. -/

def bumpCount : List (String × ℕ) → String → List (String × ℕ)
  | [], t => [(t, 1)]
  | (k, v) :: rest, t =>
    if k = t then (k, v + 1) :: rest else (k, v) :: bumpCount rest t

/-- `EventBus` state from `src/engine/bus.rs`. Handlers are opaque
callbacks, so their invocation is modelled by the ordered log `delivered` of
events handed to subscribers; the counter map is the observable state the
claims are about. -/

structure EventBus where
  event_counts : List (String × ℕ)
  delivered : List Event
deriving DecidableEq, Repr

/-- `EventBus::publish`: bump the tag's counter, then invoke the tag's
handlers (always returns `Ok`). -/

def EventBus.publish (b : EventBus) (event : Event) :
    Except TradingError Unit × EventBus :=
  (.ok (), { b with event_counts := bumpCount b.event_counts event.event_type,
                    delivered := b.delivered ++ [event] })

/-- `EventBus::publish_all`: invoke every handler under every tag; the
counter map is not touched (always returns `Ok`). -/

def EventBus.publish_all (b : EventBus) (event : Event) :
    Except TradingError Unit × EventBus :=
  (.ok (), { b with delivered := b.delivered ++ [event] })

/-- `EventBus::metrics_snapshot`. -/

def EventBus.metrics_snapshot (b : EventBus) : List (String × ℕ) :=
  b.event_counts

/-- `Trade` record from `src/execution/engine.rs`. -/

structure Trade where
  symbol : String
  signal : Signal
  entry_price : ℚ
  position_size : ℚ
  stop_loss : ℚ
  timestamp : ℕ
deriving DecidableEq, Repr

/-- `ExecutionEngine` state from `src/execution/engine.rs`. -/

structure ExecutionEngine where
  risk_engine : RiskEngine
  trades : List Trade
  event_bus : EventBus
  orders : List (ℕ × Order)
  fills : List Fill
  next_order_id : ℕ
deriving DecidableEq, Repr

/-- `ExecutionEngine::submit_order` (the wall-clock timestamp passed
explicitly). -/

def ExecutionEngine.submit_order (eng : ExecutionEngine) (symbol : String)
    (side : OrderSide) (order_type : OrderType) (tif : TimeInForce)
    (quantity : ℚ) (price : Option ℚ) (now : ℕ) :
    Except TradingError ℕ × ExecutionEngine :=
  if quantity ≤ 0 then
    (.error (.Validation "Order quantity must be positive"), eng)
  else
    let order_id := eng.next_order_id
    let order : Order :=
      { id := order_id, symbol, side, order_type, tif, quantity, price,
        filled_quantity := 0, status := .New, created_at := now,
        updated_at := now }
    let signal : Signal := match side with
      | .Buy => .Buy
      | .Sell => .Sell
    let bus := (eng.event_bus.publish
      (.OrderSubmitted order_id symbol signal quantity price)).2
    (.ok order_id,
     { eng with orders := insertKey eng.orders order_id order,
                next_order_id := order_id + 1, event_bus := bus })

/-- `ExecutionEngine::cancel_order`: note the terminal-status guard covers
only `Filled` and `Cancelled`. -/

def ExecutionEngine.cancel_order (eng : ExecutionEngine) (order_id : ℕ) :
    Except TradingError Unit × ExecutionEngine :=
  match lookupKey eng.orders order_id with
  | none => (.error (.Execution "Order not found"), eng)
  | some order =>
    if order.status = .Filled ∨ order.status = .Cancelled then
      (.error (.Execution "Order already closed"), eng)
    else
      let order1 : Order := { order with status := .Cancelled }
      let bus := (eng.event_bus.publish
        (.OrderCancelled order_id order1.symbol)).2
      (.ok (), { eng with orders := insertKey eng.orders order_id order1,
                          event_bus := bus })

/-- `ExecutionEngine::replace_order`: quantity validated BEFORE the
terminal-status guard, which again covers only `Filled` and `Cancelled`. -/

def ExecutionEngine.replace_order (eng : ExecutionEngine) (order_id : ℕ)
    (new_qty : ℚ) (new_price : Option ℚ) (now : ℕ) :
    Except TradingError Unit × ExecutionEngine :=
  match lookupKey eng.orders order_id with
  | none => (.error (.Execution "Order not found"), eng)
  | some order =>
    if new_qty ≤ 0 then
      (.error (.Validation "Order quantity must be positive"), eng)
    else if order.status = .Filled ∨ order.status = .Cancelled then
      (.error (.Execution "Order already closed"), eng)
    else
      let order1 : Order :=
        { order with quantity := new_qty, price := new_price,
                     updated_at := now }
      (.ok (), { eng with orders := insertKey eng.orders order_id order1 })

/-- `ExecutionEngine::process_fills`: run the simulator, record and publish
each fill, bump the order's filled quantity and status, and if anything
filled record the trade with the risk engine and publish `TradeExecuted`. -/

def ExecutionEngine.process_fills (eng : ExecutionEngine) (order_id : ℕ)
    (entry_price stop_loss : ℚ) (side : PositionSide) (signal : Signal)
    (now : ℕ) : Except TradingError (Option Trade) × ExecutionEngine :=
  match lookupKey eng.orders order_id with
  | none => (.error (.Execution "Order not found"), eng)
  | some order =>
    let fills := FillSimulator.simulate order_id order.symbol entry_price
      order.quantity now
    let filled_qty := (fills.map Fill.quantity).sum
    let bus := fills.foldl
      (fun b f => (b.publish (.OrderFilled order_id f.symbol f.quantity
        f.price)).2)
      eng.event_bus
    let eng1 : ExecutionEngine :=
      { eng with fills := eng.fills ++ fills, event_bus := bus }
    let order1 : Order :=
      { order with filled_quantity := order.filled_quantity + filled_qty,
                   status := if order.quantity ≤ order.filled_quantity + filled_qty
                     then .Filled else .PartiallyFilled }
    let eng2 : ExecutionEngine :=
      { eng1 with orders := insertKey eng1.orders order_id order1 }
    if 0 < filled_qty then
      let trade : Trade :=
        { symbol := order1.symbol, signal, entry_price,
          position_size := filled_qty, stop_loss, timestamp := now }
      let eng3 : ExecutionEngine := { eng2 with trades := eng2.trades ++ [trade] }
      match eng3.risk_engine.record_trade_open order1.symbol side entry_price
          filled_qty stop_loss now with
      | (.error e, re) => (.error e, { eng3 with risk_engine := re })
      | (.ok _, re) =>
        let bus2 := (eng3.event_bus.publish (.TradeExecuted order1.symbol
          signal entry_price filled_qty stop_loss)).2
        (.ok (some trade),
         { eng3 with risk_engine := re, event_bus := bus2 })
    else (.ok none, eng2)

/-- The `RiskHalt` events `ExecutionEngine::execute` publishes after a
failed pre-trade validation: one if the kill-switch is active and has a
recorded reason, none otherwise. -/

def haltEvents (re : RiskEngine) : List Event :=
  if re.kill_switch then
    match re.kill_switch_reason with
    | some reason => [.RiskHalt reason]
    | none => []
  else []

/-- `ExecutionEngine::execute` from `src/execution/engine.rs` lines 50-113.
Failures of `PositionSizer::calculate` and
`StopLossManager::calculate_stop_loss` propagate with `?` (no event);
a `pre_trade_validate` failure publishes `RiskHalt` (when the kill-switch
is active) and `Error` before returning `Execution(msg)`. -/

def ExecutionEngine.execute (eng : ExecutionEngine) (symbol : String)
    (signal : Signal) (entry_price stop_loss_distance : ℚ) (now : ℕ) :
    Except TradingError (Option Trade) × ExecutionEngine :=
  match signal with
  | .Hold => (.ok none, eng)
  | _ =>
    let side : PositionSide := match signal with
      | .Buy => .Long
      | _ => .Short
    let order_side : OrderSide := match signal with
      | .Buy => .Buy
      | _ => .Sell
    match PositionSizer.calculate eng.risk_engine.account_balance 2
        stop_loss_distance with
    | .error e => (.error e, eng)
    | .ok position_size =>
      match eng.risk_engine.pre_trade_validate symbol side entry_price
          position_size stop_loss_distance with
      | (.error err, re) =>
        let err_msg := err.toMessage
        let bus := ((haltEvents re).foldl (fun b ev => (b.publish ev).2)
          eng.event_bus).publish (.Error err_msg)
        (.error (.Execution err_msg),
         { eng with risk_engine := re, event_bus := bus.2 })
      | (.ok _, re) =>
        let eng1 : ExecutionEngine := { eng with risk_engine := re }
        match StopLossManager.calculate_stop_loss entry_price
            stop_loss_distance (signal = Signal.Buy) with
        | .error e => (.error e, eng1)
        | .ok stop_loss =>
          match eng1.submit_order symbol order_side .Market .Ioc position_size
              (some entry_price) now with
          | (.error e, eng2) => (.error e, eng2)
          | (.ok order_id, eng2) =>
            eng2.process_fills order_id entry_price stop_loss side signal now

/-- Concrete monitor of scenario S3: `BTCUSDT` last seen at `(1000, 50000)`,
gap threshold 60000 ms. -/

def monS3 : PriceMonitor :=
  { last_seen := [("BTCUSDT", (1000, 50000))], gap_threshold_ms := 60000 }

/-- The S3 probe event `{BTCUSDT, 50100, t = 70000}`. -/

def evS3 : PriceEvent :=
  { symbol := "BTCUSDT", price := 50100, timestamp := 70000, volume := 1 }

/-- The monitor state reached by the C8 witness after the first accepted
event. -/

def monC8 : PriceMonitor :=
  { last_seen := insertKey [] "BTCUSDT" (1000, 50000),
    gap_threshold_ms := 60000 }

/-- The price event fed twice in the C8 witness. -/

def evC8 : PriceEvent :=
  { symbol := "BTCUSDT", price := 50000, timestamp := 1000, volume := 1 }

/-- A mean-reversion strategy state with window size 10 but a single sample
of 100 (fewer than `window_size` samples), threshold `0.02`. -/

def stratC6 : MeanReversionStrategy :=
  { name := "MeanReversion", threshold := 1/50, window_size := 10,
    prices := [100], risk_percentage := 2 }

/-- The C6 probe event with price 50. -/

def evC6 : PriceEvent :=
  { symbol := "BTCUSDT", price := 50, timestamp := 1, volume := 1 }

/-- A mean-reversion strategy state with an empty window, used by the C6
witness. -/

def stratC6empty : MeanReversionStrategy :=
  { name := "MeanReversion", threshold := 1/50, window_size := 10,
    prices := [], risk_percentage := 2 }

/-- The portfolio limits used by concrete risk-engine states in this
development. -/

def limitsW : PortfolioLimits :=
  { max_daily_loss := 1000, max_position_size := 1000000,
    max_leverage := 10, max_open_positions := 10 }

/-- A fresh risk-engine state with balance 1000 and `limitsW`. -/

def rkFresh : RiskEngine :=
  { account_balance := 1000,
    portfolio := { positions := [], realized_pnl := 0 },
    limits := limitsW, kill_switch := false, kill_switch_reason := none,
    daily_loss := 0, peak_equity := 1000 }

/-- A `Rejected` order sitting in the book (constructed directly: the
engine itself never assigns `Rejected`). -/

def ordRej : Order :=
  { id := 1, symbol := "BTCUSDT", side := .Buy, order_type := .Market,
    tif := .Ioc, quantity := 1, price := some 100, filled_quantity := 0,
    status := .Rejected, created_at := 0, updated_at := 0 }

/-- An empty event bus. -/

def busEmpty : EventBus := { event_counts := [], delivered := [] }

/-- An execution engine holding only the rejected order `ordRej`. -/

def engC2 : ExecutionEngine :=
  { risk_engine := rkFresh, trades := [], event_bus := busEmpty,
    orders := [(1, ordRej)], fills := [], next_order_id := 2 }

/-- A `Filled` order sitting in the book, for the C2 witness. -/

def ordFil : Order :=
  { id := 1, symbol := "BTCUSDT", side := .Buy, order_type := .Market,
    tif := .Ioc, quantity := 1, price := some 100, filled_quantity := 1,
    status := .Filled, created_at := 0, updated_at := 0 }

/-- An execution engine holding only the filled order `ordFil`. -/

def engC2fil : ExecutionEngine :=
  { risk_engine := rkFresh, trades := [], event_bus := busEmpty,
    orders := [(1, ordFil)], fills := [], next_order_id := 2 }

/-- The signal-to-position-side mapping hardcoded in
`ExecutionEngine::execute` (a non-`Hold` signal maps `Buy ↦ Long`,
`Sell ↦ Short`). -/

def signalSide : Signal → PositionSide
  | .Buy => .Long
  | _ => .Short

/-- An empty fresh execution engine for the C9 witness and counterexample. -/

def engC9 : ExecutionEngine :=
  { risk_engine := rkFresh, trades := [], event_bus := busEmpty,
    orders := [], fills := [], next_order_id := 1 }

/-- C4 trace, step 1: open a long position on "A" (entry 100, size 1). -/

def c4s1 : RiskEngine := (rkFresh.record_trade_open "A" .Long 100 1 90 0).2

/-- C4 trace, step 2: open a long position on "B" (entry 100, size 1). -/

def c4s2 : RiskEngine := (c4s1.record_trade_open "B" .Long 100 1 90 0).2

/-- C4 trace, step 3: mark "B" down to 50 (equity 950, peak stays 1000). -/

def c4s3 : RiskEngine := (c4s2.update_price "B" 50).2

/-- C4 trace, step 4: close "A" at 150 (balance 1050, equity 1000). -/

def c4s4 : RiskEngine := (c4s3.record_trade_close "A" 150).2

/-- C4 trace, step 5: attempt to close "B" at the invalid exit price −1;
the call errors but has already dropped the losing position. -/

def c4s5 : RiskEngine := (c4s4.record_trade_close "B" (-1)).2

theorem le_roundHalfEven (q : ℚ) : q - 1/2 ≤ (roundHalfEven q : ℚ) := by
  have hf : (⌊q⌋ : ℚ) ≤ q := Int.floor_le q
  have hc : q < ⌊q⌋ + 1 := Int.lt_floor_add_one q
  simp only [roundHalfEven]
  split_ifs <;> push_cast <;> linarith

theorem roundHalfEven_le (q : ℚ) : (roundHalfEven q : ℚ) ≤ q + 1/2 := by
  have hf : (⌊q⌋ : ℚ) ≤ q := Int.floor_le q
  have hc : q < ⌊q⌋ + 1 := Int.lt_floor_add_one q
  simp only [roundHalfEven]
  split_ifs <;> push_cast <;> linarith

theorem le_round_dp8 (q : ℚ) : q - 1/200000000 ≤ round_dp8 q := by
  have h := le_roundHalfEven (q * 100000000)
  simp only [round_dp8]
  linarith

theorem round_dp8_le (q : ℚ) : round_dp8 q ≤ q + 1/200000000 := by
  have h := roundHalfEven_le (q * 100000000)
  simp only [round_dp8]
  linarith

theorem lookupKey_insertKey_self {α β : Type} [DecidableEq α]
    (l : List (α × β)) (k : α) (v : β) :
    lookupKey (insertKey l k v) k = some v := by
  induction l with
  | nil => simp [insertKey, lookupKey]
  | cons hd tl ih =>
    by_cases h : hd.1 = k
    · simp [insertKey, lookupKey, h]
    · simp [insertKey, lookupKey, h, ih]

theorem lookupKey_bumpCount (l : List (String × ℕ)) (tag t : String) :
    lookupKey (bumpCount l tag) t =
      if t = tag then some ((lookupKey l t).getD 0 + 1)
      else lookupKey l t := by
  induction l with
  | nil =>
    by_cases h : t = tag
    · simp [bumpCount, lookupKey, h]
    · have h2 : ¬ tag = t := fun hh => h hh.symm
      simp [bumpCount, lookupKey, h, h2]
  | cons hd tl ih =>
    by_cases hk : hd.1 = tag
    · by_cases ht : t = tag
      · simp [bumpCount, lookupKey, hk, ht]
      · have h2 : ¬ tag = t := fun hh => ht hh.symm
        have h3 : ¬ hd.1 = t := hk ▸ h2
        simp [bumpCount, lookupKey, hk, ht, h2, h3]
    · by_cases ht : hd.1 = t
      · have h2 : ¬ t = tag := fun hh => hk (ht.symm ▸ hh)
        simp [bumpCount, lookupKey, hk, ht, h2]
      · simp [bumpCount, lookupKey, hk, ht, ih]

/-- Claim C10: `publish_all` leaves the event-counter map unchanged —
`metrics_snapshot` returns the same map before and after — and `publish`
increments exactly the published event's type tag by one, leaving every
other tag's counter untouched. -/
theorem C10_publish_counters (b : EventBus) (e : Event) :
    ((b.publish_all e).2.metrics_snapshot = b.metrics_snapshot) ∧
    (∀ t : String,
      lookupKey (b.publish e).2.metrics_snapshot t =
        if t = e.event_type then
          some ((lookupKey b.metrics_snapshot t).getD 0 + 1)
        else lookupKey b.metrics_snapshot t) := by
  constructor
  · simp [EventBus.publish_all, EventBus.metrics_snapshot]
  · intro t
    simp only [EventBus.publish, EventBus.metrics_snapshot]
    exact lookupKey_bumpCount b.event_counts e.event_type t

/-- Claim C7: if the monitor holds `(last_ts, last_price)` for the event's
symbol, the event is strictly newer, and the age difference exceeds
`gap_threshold_ms`, then `process` fails with the `MarketData` price-gap
error and the whole monitor state (every symbol's record) is unchanged. -/
theorem C7_gap_rejection (m : PriceMonitor) (ev : PriceEvent)
    (last_ts : ℕ) (last_price : ℚ)
    (hlook : lookupKey m.last_seen ev.symbol = some (last_ts, last_price))
    (hgt : last_ts < ev.timestamp)
    (hgap : m.gap_threshold_ms < ev.timestamp - last_ts) :
    m.process ev = (.error (.MarketData ("Price gap detected for " ++
      ev.symbol ++ ": " ++ toString (ev.timestamp - last_ts) ++ "ms")), m) := by
  have hnotdup : ¬ (ev.timestamp ≤ last_ts ∧ ev.price = last_price) := by
    rintro ⟨hle, -⟩
    omega
  simp [PriceMonitor.process, hlook, hnotdup, hgt, hgap]

/-- Witness for claim C7 at scenario S3. -/
theorem C7_gap_rejection_witness :
    monS3.process evS3 = (.error (.MarketData
      ("Price gap detected for " ++ "BTCUSDT" ++ ": " ++ toString (70000 - 1000)
        ++ "ms")), monS3) :=
  C7_gap_rejection monS3 evS3 1000 50000 (by simp [monS3, evS3, lookupKey])
    (by decide) (by decide)

/-- Claim C8: when `process(e)` accepts and forwards `e`, an immediately
repeated `process(e)` on the resulting monitor returns `Ok(None)` and leaves
the monitor (its whole per-symbol map) unchanged. -/
theorem C8_dedup (m m1 : PriceMonitor) (ev : PriceEvent)
    (h : m.process ev = (.ok (some ev), m1)) :
    m1.process ev = (.ok none, m1) := by
  have hm1 : m1.last_seen =
      insertKey m.last_seen ev.symbol (ev.timestamp, ev.price) := by
    simp only [PriceMonitor.process] at h
    split at h
    · split_ifs at h with h1 h2
      · exact absurd (congrArg Prod.fst h) (by simp)
      · exact absurd (congrArg Prod.fst h) (by simp)
      · exact congrArg PriceMonitor.last_seen (congrArg Prod.snd h).symm
    · exact congrArg PriceMonitor.last_seen (congrArg Prod.snd h).symm
  have hlook : lookupKey m1.last_seen ev.symbol =
      some (ev.timestamp, ev.price) := by
    rw [hm1]
    exact lookupKey_insertKey_self m.last_seen ev.symbol
      (ev.timestamp, ev.price)
  simp [PriceMonitor.process, hlook]

/-- Witness for claim C8: feed a fresh event twice; the second call
deduplicates and leaves the monitor unchanged. -/
theorem C8_dedup_witness : monC8.process evC8 = (.ok none, monC8) :=
  C8_dedup { last_seen := [], gap_threshold_ms := 60000 } monC8 evC8
    (by simp [PriceMonitor.process, monC8, evC8, lookupKey])

/-- Claim C5: for positive quantity, the simulator emits exactly one fill of
the full quantity when `quantity ≤ 1` and exactly two fills of sizes
`round₈(quantity/2)` and `quantity − round₈(quantity/2)` when
`quantity > 1`; the emitted quantities always sum to the order quantity and
every fill carries fee `round₈(price × fill_quantity × 0.0005)`. -/
theorem C5_fill_split (oid : ℕ) (sym : String) (price q : ℚ) (now : ℕ)
    (hq : 0 < q) :
    ((FillSimulator.simulate oid sym price q now).map Fill.quantity).sum = q
    ∧ (q ≤ 1 → FillSimulator.simulate oid sym price q now =
        [{ order_id := oid, symbol := sym, price := price, quantity := q,
           fee := round_dp8 (price * q * feeRate), timestamp := now }])
    ∧ (1 < q → FillSimulator.simulate oid sym price q now =
        [{ order_id := oid, symbol := sym, price := price,
           quantity := round_dp8 (q/2),
           fee := round_dp8 (price * round_dp8 (q/2) * feeRate),
           timestamp := now },
         { order_id := oid, symbol := sym, price := price,
           quantity := q - round_dp8 (q/2),
           fee := round_dp8 (price * (q - round_dp8 (q/2)) * feeRate),
           timestamp := now }]) := by
  by_cases h1 : 1 < q
  · have hhalf : 0 < round_dp8 (q/2) := by
      have hb := le_round_dp8 (q/2)
      linarith
    have hrem : 0 < q - round_dp8 (q/2) := by
      have hb := round_dp8_le (q/2)
      linarith
    have hsim : FillSimulator.simulate oid sym price q now =
        [{ order_id := oid, symbol := sym, price := price,
           quantity := round_dp8 (q/2),
           fee := round_dp8 (price * round_dp8 (q/2) * feeRate),
           timestamp := now },
         { order_id := oid, symbol := sym, price := price,
           quantity := q - round_dp8 (q/2),
           fee := round_dp8 (price * (q - round_dp8 (q/2)) * feeRate),
           timestamp := now }] := by
      simp [FillSimulator.simulate, h1, hhalf, hrem]
    refine ⟨?_, fun hle => absurd h1 (not_lt.mpr hle), fun _ => hsim⟩
    rw [hsim]
    simp
  · have hsim : FillSimulator.simulate oid sym price q now =
        [{ order_id := oid, symbol := sym, price := price, quantity := q,
           fee := round_dp8 (price * q * feeRate), timestamp := now }] := by
      simp [FillSimulator.simulate, h1, hq]
    refine ⟨?_, fun _ => hsim, fun hlt => absurd hlt h1⟩
    rw [hsim]
    simp

/-- Witness for claim C5 at scenario S7: `(price = 100, qty = 3)` splits
into two fills of `1.5` with fee `0.075` each. -/
theorem C5_fill_split_witness :
    ((FillSimulator.simulate 1 "BTCUSDT" 100 3 0).map Fill.quantity).sum = 3
    ∧ FillSimulator.simulate 1 "BTCUSDT" 100 3 0 =
      [{ order_id := 1, symbol := "BTCUSDT", price := 100,
         quantity := round_dp8 (3/2),
         fee := round_dp8 (100 * round_dp8 (3/2) * feeRate), timestamp := 0 },
       { order_id := 1, symbol := "BTCUSDT", price := 100,
         quantity := 3 - round_dp8 (3/2),
         fee := round_dp8 (100 * (3 - round_dp8 (3/2)) * feeRate),
         timestamp := 0 }] :=
  ⟨(C5_fill_split 1 "BTCUSDT" 100 3 0 (by norm_num)).1,
   (C5_fill_split 1 "BTCUSDT" 100 3 0 (by norm_num)).2.2 (by norm_num)⟩

/-- Claim C6 (amended): the mean-reversion signal is `Hold` whenever the
price window is EMPTY; the source guards only on emptiness, not on having
fewer than `window_size` samples. -/
theorem C6_hold_on_empty_window (s : MeanReversionStrategy) (ev : PriceEvent)
    (h : s.prices = []) : s.signal ev = .ok .Hold := by
  simp [MeanReversionStrategy.signal, h]

/-- Counterexample to claim C6 as stated: with 1 sample in a window of
size 10 (fewer than `W`), the signal is `Buy`, not `Hold`. -/
theorem C6_counterexample :
    stratC6.prices.length < stratC6.window_size ∧
    stratC6.signal evC6 = .ok .Buy := by
  constructor
  · norm_num [stratC6]
  · norm_num [MeanReversionStrategy.signal,
      MeanReversionStrategy.calculate_mean,
      MeanReversionStrategy.calculate_deviation, stratC6, evC6]

/-- Witness for the amended claim C6 on a concrete empty-window state. -/
theorem C6_hold_on_empty_window_witness :
    stratC6empty.signal evC6 = .ok .Hold :=
  C6_hold_on_empty_window stratC6empty evC6 rfl

/-- Claim C3 (amended): while the kill-switch is active every
`pre_trade_validate` call fails immediately with the kill-switch `Risk`
error and leaves the engine unchanged, so no trade can pass the pre-trade
gate until `deactivate_kill_switch`; `record_trade_open` itself performs no
kill-switch check. -/
theorem C3_kill_switch_blocks_validate (s : RiskEngine) (sym : String)
    (side : PositionSide) (entry_price position_size stop_loss_distance : ℚ)
    (h : s.kill_switch = true) :
    s.pre_trade_validate sym side entry_price position_size
      stop_loss_distance =
      (.error (.Risk "Kill-switch active; trading halted"), s) := by
  simp [RiskEngine.pre_trade_validate, h]

/-- Counterexample to claim C3 as stated: with the kill-switch active,
`record_trade_open` still succeeds and opens a position. -/
theorem C3_counterexample :
    (rkFresh.activate_kill_switch "halt").kill_switch = true ∧
    ((rkFresh.activate_kill_switch "halt").record_trade_open "BTCUSDT"
        .Long 100 1 90 0).1 = .ok () ∧
    ((rkFresh.activate_kill_switch "halt").record_trade_open "BTCUSDT"
        .Long 100 1 90 0).2.portfolio.open_positions = 1 := by
  refine ⟨rfl, ?_, ?_⟩ <;>
    norm_num [RiskEngine.record_trade_open, RiskEngine.activate_kill_switch,
      Portfolio.open_position, Portfolio.open_positions, Position.new,
      rkFresh, lookupKey, insertKey]

/-- Witness for the amended claim C3 on a concrete tripped state. -/
theorem C3_kill_switch_blocks_validate_witness :
    (rkFresh.activate_kill_switch "halt").pre_trade_validate "BTCUSDT"
      .Long 100 1 90 =
      (.error (.Risk "Kill-switch active; trading halted"),
       rkFresh.activate_kill_switch "halt") :=
  C3_kill_switch_blocks_validate (rkFresh.activate_kill_switch "halt")
    "BTCUSDT" .Long 100 1 90 rfl

theorem can_open_no_error (l : PortfolioLimits) (n : ℕ) (e : TradingError) :
    l.can_open_new_position n ≠ .error e := by
  simp [PortfolioLimits.can_open_new_position]

theorem too_large_error_kind (l : PortfolioLimits) (x : ℚ) (e : TradingError)
    (h : l.is_position_too_large x = .error e) : e.isValidation = true := by
  simp only [PortfolioLimits.is_position_too_large] at h
  split_ifs at h
  injection h with h1
  subst h1
  rfl

theorem leverage_error_kind (l : PortfolioLimits) (x : ℚ) (e : TradingError)
    (h : l.is_leverage_exceeded x = .error e) : e.isValidation = true := by
  simp only [PortfolioLimits.is_leverage_exceeded] at h
  split_ifs at h
  injection h with h1
  subst h1
  rfl

theorem daily_loss_error_kind (l : PortfolioLimits) (x : ℚ) (e : TradingError)
    (h : l.is_daily_loss_exceeded x = .error e) : e.isValidation = true := by
  simp only [PortfolioLimits.is_daily_loss_exceeded] at h
  split_ifs at h
  injection h with h1
  subst h1
  rfl

/-- Claim C1 (amended): every error out of `pre_trade_validate` is of kind
`Risk` or `Validation`; in particular with the kill-switch off, a failure of
check (2) — some of entry price, position size, stop-loss distance not
strictly positive — returns a `Validation` error (not `Risk`) with the
check-specific message. -/
theorem C1_pre_trade_error_kinds (s : RiskEngine) (sym : String)
    (side : PositionSide) (entry_price position_size stop_loss_distance : ℚ) :
    (∀ err s2, s.pre_trade_validate sym side entry_price position_size
        stop_loss_distance = (.error err, s2) →
      err.isRisk = true ∨ err.isValidation = true)
    ∧ (s.kill_switch = false →
       (entry_price ≤ 0 ∨ position_size ≤ 0 ∨ stop_loss_distance ≤ 0) →
       (s.pre_trade_validate sym side entry_price position_size
           stop_loss_distance).1 =
         .error (.Validation
           "Entry price, position size, and stop loss distance must be positive")) := by
  constructor
  · intro err s2 herr
    simp only [RiskEngine.pre_trade_validate] at herr
    split at herr
    · rw [Prod.mk.injEq] at herr
      obtain ⟨h1, -⟩ := herr
      injection h1 with h2
      subst h2
      left
      rfl
    · split at herr
      · rw [Prod.mk.injEq] at herr
        obtain ⟨h1, -⟩ := herr
        injection h1 with h2
        subst h2
        right
        rfl
      · split at herr
        next e1 heq => exact absurd heq (can_open_no_error _ _ _)
        next canOpen heq =>
          split at herr
          · rw [Prod.mk.injEq] at herr
            obtain ⟨h1, -⟩ := herr
            injection h1 with h2
            subst h2
            left
            rfl
          · split at herr
            next e1 heq2 =>
              rw [Prod.mk.injEq] at herr
              obtain ⟨h1, -⟩ := herr
              injection h1 with h2
              subst h2
              right
              exact too_large_error_kind _ _ _ heq2
            next tooLarge heq2 =>
              split at herr
              · rw [Prod.mk.injEq] at herr
                obtain ⟨h1, -⟩ := herr
                injection h1 with h2
                subst h2
                left
                rfl
              · split at herr
                · rw [Prod.mk.injEq] at herr
                  obtain ⟨h1, -⟩ := herr
                  injection h1 with h2
                  subst h2
                  left
                  rfl
                · split at herr
                  next e1 heq3 =>
                    rw [Prod.mk.injEq] at herr
                    obtain ⟨h1, -⟩ := herr
                    injection h1 with h2
                    subst h2
                    right
                    exact leverage_error_kind _ _ _ heq3
                  next levEx heq3 =>
                    split at herr
                    · rw [Prod.mk.injEq] at herr
                      obtain ⟨h1, -⟩ := herr
                      injection h1 with h2
                      subst h2
                      left
                      rfl
                    · split at herr
                      next e1 heq4 =>
                        rw [Prod.mk.injEq] at herr
                        obtain ⟨h1, -⟩ := herr
                        injection h1 with h2
                        subst h2
                        right
                        exact daily_loss_error_kind _ _ _ heq4
                      next dlEx heq4 =>
                        split at herr
                        · rw [Prod.mk.injEq] at herr
                          obtain ⟨h1, -⟩ := herr
                          injection h1 with h2
                          subst h2
                          left
                          rfl
                        · rw [Prod.mk.injEq] at herr
                          obtain ⟨h1, -⟩ := herr
                          exact absurd h1 (by simp)
  · intro hks hnum
    simp [RiskEngine.pre_trade_validate, hks, hnum]

/-- Counterexample to claim C1 as stated: on a fresh engine with the
kill-switch off, a zero entry price makes `pre_trade_validate` return a
`Validation` error, which is not of the `Risk` kind. -/
theorem C1_counterexample :
    (rkFresh.pre_trade_validate "BTCUSDT" .Long 0 1 1).1 =
      .error (.Validation
        "Entry price, position size, and stop loss distance must be positive")
    ∧ TradingError.isRisk (.Validation
        "Entry price, position size, and stop loss distance must be positive")
      = false := by
  constructor
  · norm_num [RiskEngine.pre_trade_validate, rkFresh]
  · rfl

/-- Witness for the amended claim C1: both conjuncts applied at a concrete
state and input. -/
theorem C1_pre_trade_error_kinds_witness :
    TradingError.isRisk (.Validation
        "Entry price, position size, and stop loss distance must be positive")
      = true ∨
    TradingError.isValidation (.Validation
        "Entry price, position size, and stop loss distance must be positive")
      = true :=
  (C1_pre_trade_error_kinds rkFresh "BTCUSDT" .Long 0 1 1).1
    (.Validation
      "Entry price, position size, and stop loss distance must be positive")
    rkFresh
    (by norm_num [RiskEngine.pre_trade_validate, rkFresh])

/-- Claim C2 (amended): for every order whose status is `Filled` or
`Cancelled`, `cancel_order` and — for positive new quantity —
`replace_order` fail with the `Execution` "Order already closed" error and
leave the whole engine (hence the order's status, quantity, price and
filled quantity) unchanged. The source guard does not cover `Rejected`
(a status the engine never assigns), so a `Rejected` order CAN be
cancelled or replaced. -/
theorem C2_terminal_guard (eng : ExecutionEngine) (order_id : ℕ)
    (order : Order) (hlook : lookupKey eng.orders order_id = some order)
    (hterm : order.status = .Filled ∨ order.status = .Cancelled) :
    eng.cancel_order order_id =
      (.error (.Execution "Order already closed"), eng)
    ∧ ∀ (new_qty : ℚ) (new_price : Option ℚ) (now : ℕ), 0 < new_qty →
        eng.replace_order order_id new_qty new_price now =
          (.error (.Execution "Order already closed"), eng) := by
  constructor
  · rcases hterm with h | h <;>
      simp [ExecutionEngine.cancel_order, hlook, h]
  · intro new_qty new_price now hq
    have hq2 : ¬ new_qty ≤ 0 := not_le.mpr hq
    rcases hterm with h | h <;>
      simp [ExecutionEngine.replace_order, hlook, h, hq2]

/-- Counterexample to claim C2 as stated: an order with status `Rejected`
CAN be cancelled — `cancel_order` succeeds and flips it to `Cancelled`. -/
theorem C2_counterexample :
    lookupKey engC2.orders 1 = some ordRej ∧
    ordRej.status = .Rejected ∧
    (engC2.cancel_order 1).1 = .ok () ∧
    lookupKey (engC2.cancel_order 1).2.orders 1 =
      some { ordRej with status := .Cancelled } := by
  refine ⟨rfl, rfl, ?_, ?_⟩ <;>
    simp [ExecutionEngine.cancel_order, engC2, ordRej, lookupKey, insertKey]

/-- Witness for the amended claim C2 on a concrete `Filled` order. -/
theorem C2_terminal_guard_witness :
    engC2fil.cancel_order 1 =
      (.error (.Execution "Order already closed"), engC2fil)
    ∧ engC2fil.replace_order 1 2 none 5 =
      (.error (.Execution "Order already closed"), engC2fil) :=
  ⟨(C2_terminal_guard engC2fil 1 ordFil rfl (Or.inl rfl)).1,
   (C2_terminal_guard engC2fil 1 ordFil rfl (Or.inl rfl)).2 2 none 5
     (by norm_num)⟩

theorem publish_delivered (b : EventBus) (ev : Event) :
    (b.publish ev).2.delivered = b.delivered ++ [ev] := by
  simp [EventBus.publish]

theorem foldl_publish_delivered (l : List Event) (b : EventBus) :
    (l.foldl (fun acc ev => (acc.publish ev).2) b).delivered =
      b.delivered ++ l := by
  induction l generalizing b with
  | nil => simp
  | cons hd tl ih =>
    rw [List.foldl_cons, ih, publish_delivered]
    simp

/-- Claim C9 (amended): `execute` with a non-`Hold` signal publishes an
`Error` event (preceded by `RiskHalt` when the kill-switch is active)
exactly for pre-trade risk-validation failures, returning
`Execution(msg)`; failures of position sizing and of stop-loss calculation
are returned to the caller with NO event published. -/
theorem C9_execute_error_events (eng : ExecutionEngine) (sym : String)
    (signal : Signal) (entry_price stop_loss_distance : ℚ) (now : ℕ)
    (hsig : signal ≠ .Hold) :
    (∀ e, PositionSizer.calculate eng.risk_engine.account_balance 2
        stop_loss_distance = .error e →
      eng.execute sym signal entry_price stop_loss_distance now =
        (.error e, eng))
    ∧ (∀ position_size err re,
        PositionSizer.calculate eng.risk_engine.account_balance 2
          stop_loss_distance = .ok position_size →
        eng.risk_engine.pre_trade_validate sym (signalSide signal)
          entry_price position_size stop_loss_distance = (.error err, re) →
        (eng.execute sym signal entry_price stop_loss_distance now).1 =
          .error (.Execution err.toMessage) ∧
        (eng.execute sym signal entry_price stop_loss_distance
            now).2.event_bus.delivered =
          eng.event_bus.delivered ++ haltEvents re ++ [.Error err.toMessage])
    ∧ (∀ position_size re e,
        PositionSizer.calculate eng.risk_engine.account_balance 2
          stop_loss_distance = .ok position_size →
        eng.risk_engine.pre_trade_validate sym (signalSide signal)
          entry_price position_size stop_loss_distance = (.ok (), re) →
        StopLossManager.calculate_stop_loss entry_price stop_loss_distance
          (signal = Signal.Buy) = .error e →
        eng.execute sym signal entry_price stop_loss_distance now =
          (.error e, { eng with risk_engine := re })) := by
  cases signal with
  | Hold => exact absurd rfl hsig
  | Buy =>
    refine ⟨?_, ?_, ?_⟩
    · intro e he
      simp [ExecutionEngine.execute, he]
    · intro position_size err re hps hval
      simp only [signalSide] at hval
      constructor
      · simp [ExecutionEngine.execute, hps, hval]
      · simp only [ExecutionEngine.execute, hps, hval]
        rw [publish_delivered, foldl_publish_delivered]
    · intro position_size re e hps hval hsl
      simp only [signalSide] at hval
      simp only [decide_eq_true_eq] at hsl ⊢
      simp at hsl
      simp [ExecutionEngine.execute, hps, hval, hsl]
  | Sell =>
    refine ⟨?_, ?_, ?_⟩
    · intro e he
      simp [ExecutionEngine.execute, he]
    · intro position_size err re hps hval
      simp only [signalSide] at hval
      constructor
      · simp [ExecutionEngine.execute, hps, hval]
      · simp only [ExecutionEngine.execute, hps, hval]
        rw [publish_delivered, foldl_publish_delivered]
    · intro position_size re e hps hval hsl
      simp only [signalSide] at hval
      simp at hsl
      simp [ExecutionEngine.execute, hps, hval, hsl]

/-- Counterexample to claim C9 as stated: `execute` with a zero stop-loss
distance fails in position sizing and returns the error, but NO `Error`
event is published on the bus (the delivered log stays empty). -/
theorem C9_counterexample :
    (engC9.execute "BTCUSDT" .Buy 100 0 0).1 =
      .error (.Validation "Stop loss distance must be positive") ∧
    (engC9.execute "BTCUSDT" .Buy 100 0 0).2.event_bus.delivered = [] := by
  constructor <;>
    norm_num [ExecutionEngine.execute, PositionSizer.calculate, engC9,
      rkFresh, busEmpty]

/-- Witness for the amended claim C9: the sizing-failure conjunct applied at
a concrete engine and input. -/
theorem C9_execute_error_events_witness :
    engC9.execute "BTCUSDT" .Buy 100 0 0 =
      (.error (.Validation "Stop loss distance must be positive"), engC9) :=
  (C9_execute_error_events engC9 "BTCUSDT" .Buy 100 0 0 (by simp)).1
    (.Validation "Stop loss distance must be positive")
    (by norm_num [PositionSizer.calculate, engC9, rkFresh])

theorem roundHalfEven_intCast (n : ℤ) : roundHalfEven (n : ℚ) = n := by
  norm_num [roundHalfEven]

theorem round_dp8_intCast (n : ℤ) : round_dp8 ((n : ℚ)) = n := by
  have h : ((n : ℚ)) * 100000000 = ((n * 100000000 : ℤ) : ℚ) := by
    push_cast
    ring
  rw [round_dp8, h, roundHalfEven_intCast]
  push_cast
  rw [mul_div_assoc]
  norm_num

/-- Claim C4: evaluation of the embedded code on the failing trace. The
final state violates `peak_equity ≥ equity`: the failed close silently
dropped position "B" and its −50 unrealized PnL, leaving equity 1050 above
the recorded peak 1000. -/
theorem C4_peak_equity_violation :
    RiskEngine.new 1000 limitsW = .ok rkFresh ∧
    (c4s4.record_trade_close "B" (-1)).1 =
      .error (.Validation "Price must be positive") ∧
    c4s5.equity = 1050 ∧ c4s5.peak_equity = 1000 ∧
    c4s5.peak_equity < c4s5.equity := by
  have hAB : ("A" : String) ≠ "B" := by decide
  have hBA : ("B" : String) ≠ "A" := by decide
  have h0 : round_dp8 0 = 0 := by
    have h00 : ((0 : ℚ)) = ((0 : ℤ) : ℚ) := by norm_num
    rw [h00, round_dp8_intCast]
  have hm50 : round_dp8 (-50) = -50 := by
    have hm : ((-50 : ℚ)) = ((-50 : ℤ) : ℚ) := by norm_num
    rw [hm, round_dp8_intCast]
  have h50 : round_dp8 50 = 50 := by
    have hp : ((50 : ℚ)) = ((50 : ℤ) : ℚ) := by norm_num
    rw [hp, round_dp8_intCast]
  refine ⟨?_, ?_, ?_, ?_, ?_⟩ <;>
    norm_num [hAB, hBA, h0, hm50, h50, RiskEngine.new,
      RiskEngine.record_trade_open,
      RiskEngine.record_trade_close, RiskEngine.update_price,
      RiskEngine.update_risk_state, RiskEngine.equity,
      Portfolio.open_position, Portfolio.close_position,
      Portfolio.update_price, Portfolio.unrealized_pnl,
      Position.new, Position.update_price, Position.unrealized_pnl,
      lookupKey, insertKey, eraseKey,
      c4s5, c4s4, c4s3, c4s2, c4s1, rkFresh, limitsW]
